import Mathlib

/-!
Verification of the configuration & quality-gate engine.

The definitions below are shallow embeddings of the JavaScript sources:
`lib/quality-gate.js` (QualityGate), `lib/config-validator.js`
(ConfigValidator), `lib/errors.js` (parseAJVErrors and friends) and
`lib/config-schema.js` (the three JSON schemas).  JavaScript objects become
Lean structures, thrown exceptions become `Except`, `undefined`/absent
fields become `Option` or recorded defaults, and JavaScript truthiness is
made explicit wherever the source relies on it.
-/

/-- A JSON-like value as handled by the configuration subsystem.  Numbers are
modelled as integers: every numeric constraint in the schemas under
consideration (`minimum`, `maximum`, line counts, ...) is an integer bound
and no claim involves fractional values. -/
inductive JValue where
  | null
  | bool (b : Bool)
  | num (n : Int)
  | str (s : String)
  | arr (xs : List JValue)
  | obj (fields : List (String × JValue))
deriving Repr, BEq

/-- Property lookup on an object's field list: the value of the first binding
of the key (JavaScript objects have at most one binding per key). -/
def lookupField (fields : List (String × JValue)) (k : String) : Option JValue :=
  match fields.find? (fun kv => kv.1 == k) with
  | some kv => some kv.2
  | none => none

/-- JavaScript truthiness of a value (`null`, `false`, `0` and `""` are
falsy; arrays and objects are always truthy). -/
def jsTruthy (v : JValue) : Bool :=
  match v with
  | JValue.null => false
  | JValue.bool b => b
  | JValue.num n => n != 0
  | JValue.str s => !s.isEmpty
  | JValue.arr _ => true
  | JValue.obj _ => true

/-- Whether `typeof v === 'object'` holds in JavaScript (`null`, arrays and
objects all have typeof `object`). -/
def isJsObjectType (v : JValue) : Bool :=
  match v with
  | JValue.null => true
  | JValue.arr _ => true
  | JValue.obj _ => true
  | _ => false

/-- JavaScript property access `v.k` for a possibly-non-object value: it
yields `undefined` (here `none`) unless `v` is an object with the field. -/
def getProp (v : JValue) (k : String) : Option JValue :=
  match v with
  | JValue.obj fields => lookupField fields k
  | _ => none

/-- Truthiness of `v.k` where an absent field (`undefined`) is falsy. -/
def jsTruthyOpt (v : Option JValue) : Bool :=
  match v with
  | some x => jsTruthy x
  | none => false

/-! ## Quality gate (`lib/quality-gate.js`) -/

/-- The value a rule's `check` resolves with:
`{pass, message, skip, fix, autoFix, details}`.  Fields the JavaScript
object may leave `undefined` get the falsy defaults the gate reads back
(`result.skip || false`, `result.autoFix || false`). -/
structure RuleOutcome where
  pass : Bool
  message : String
  skip : Bool := false
  fix : Option String := none
  autoFix : Bool := false
  details : Option JValue := none

/-- A quality rule as stored in the registry: id, display name, severity
string, enabled flag, configuration object and the `check` function.  A
thrown JavaScript error is modelled by `Except.error` carrying the error's
`message`. -/
structure Rule where
  id : String
  name : String
  severity : String
  enabled : Bool
  config : List (String × JValue)
  fix : Option String := none
  check : String → List (String × JValue) → Except String RuleOutcome

/-- One row of `QualityGate.check`'s `results` array.  Result objects built
without some keys (the file-not-found and rule-crash rows) read back the
falsy defaults recorded here. -/
structure RuleResult where
  file : String
  rule : String
  ruleName : String
  severity : String
  message : String
  pass : Bool
  skip : Bool := false
  fix : Option String := none
  autoFix : Bool := false
  details : Option JValue := none
deriving Repr, BEq

/-- `QualityGate._severityLevel`: the source builds
`levels = {info: 0, warn: 1, error: 2, critical: 3}` and returns
`levels[severity] || 1`.  Because `0` and `undefined` are both falsy in
JavaScript, both the `info` entry and unknown severities evaluate to `1`. -/
def severityLevel (s : String) : Nat :=
  let looked : Option Nat :=
    if s == "info" then some 0
    else if s == "warn" then some 1
    else if s == "error" then some 2
    else if s == "critical" then some 3
    else none
  match looked with
  | some n => if n == 0 then 1 else n
  | none => 1

/-- JavaScript `a || b` on the `fix` strings (`result.fix || rule.fix`):
the left value wins unless it is absent or the empty string. -/
def jsOrOpt (a b : Option String) : Option String :=
  match a with
  | some s => if s.isEmpty then b else some s
  | none => b

/-- The synthetic result `_checkFile` returns for a file that does not
exist; no rule runs for such a file. -/
def fileNotFoundResult (filePath : String) : RuleResult :=
  { file := filePath
    rule := "file-exists"
    ruleName := "File Exists"
    severity := "error"
    message := "File not found"
    pass := false }

/-- The result row `_checkFile` builds for one enabled rule on an existing
file: the normal row on success, and on a thrown error the synthetic
`error`-severity row (`catch` branch) with message
`Rule execution error: <e.message>`. -/
def resultOfRule (filePath : String) (r : Rule) : RuleResult :=
  match r.check filePath r.config with
  | Except.ok o =>
      { file := filePath
        rule := r.id
        ruleName := r.name
        severity := r.severity
        message := o.message
        pass := o.pass
        skip := o.skip
        fix := jsOrOpt o.fix r.fix
        autoFix := o.autoFix
        details := o.details }
  | Except.error e =>
      { file := filePath
        rule := r.id
        ruleName := r.name
        severity := "error"
        message := "Rule execution error: " ++ e
        pass := false }

/-- `QualityGate._checkFile`: a missing file yields the single
file-not-found row; otherwise each enabled rule contributes exactly one
row (`if (!rule.enabled) continue`). -/
def checkFile (fsExists : String → Bool) (filePath : String) (rules : List Rule) :
    List RuleResult :=
  if fsExists filePath = false then [fileNotFoundResult filePath]
  else (rules.filter (fun r => r.enabled)).map (resultOfRule filePath)

/-- The `summary` object assembled by `QualityGate.check`. -/
structure GateSummary where
  total : Nat
  critical : Nat
  error : Nat
  warn : Nat
  info : Nat
  filesChecked : Nat
  rulesRun : Nat
deriving Repr, BEq

/-- The `{passed, results, summary}` object returned by
`QualityGate.check`. -/
structure CheckResult where
  passed : Bool
  results : List RuleResult
  summary : GateSummary

/-- `QualityGate._hasBlockingIssues`: some non-passing, non-skipped result
reaches the numeric threshold. -/
def hasBlockingIssues (results : List RuleResult) (minSeverity : Nat) : Bool :=
  results.any (fun r => !r.pass && !r.skip && decide (severityLevel r.severity ≥ minSeverity))

/-- `QualityGate.check`, after the file set, rule set and severity
threshold have been resolved from the options and configuration (lines
44-45 of the source): run every file against every rule, tally each
result's severity (the `switch` counts every result, with no branch for
severities outside the four named ones), and decide `passed` from
`_hasBlockingIssues`.  The fix-application step only rewrites files on
disk and adds `summary.fixed`; no claim touches it, so it is omitted
here. -/
def qualityCheck (fsExists : String → Bool) (filesToCheck : List String)
    (rulesToRun : List Rule) (severity : String) : CheckResult :=
  let results := (filesToCheck.map (fun f => checkFile fsExists f rulesToRun)).flatten
  let summary : GateSummary :=
    { total := results.length
      critical := results.countP (fun r => r.severity == "critical")
      error := results.countP (fun r => r.severity == "error")
      warn := results.countP (fun r => r.severity == "warn")
      info := results.countP (fun r => r.severity == "info")
      filesChecked := filesToCheck.length
      rulesRun := rulesToRun.length }
  let minSeverity := severityLevel severity
  { passed := hasBlockingIssues results minSeverity == false
    results := results
    summary := summary }

/-! ## Active-rule resolution (`QualityGate._getActiveRules`) -/

/-- One entry of the gate configuration's `rules` array
(`{id, enabled?, severity?, config?}`). -/
structure RuleOverride where
  id : String
  enabled : Option Bool := none
  severity : Option String := none
  config : Option (List (String × JValue)) := none

/-- JavaScript object spread `{...a, ...b}` restricted to one level: keys of
`a` keep their position with `b`'s value when overridden, keys only in `b`
are appended in `b`'s order. -/
def mergeShallow (a b : List (String × JValue)) : List (String × JValue) :=
  (a.map (fun kv => (kv.1, (lookupField b kv.1).getD kv.2)))
    ++ b.filter (fun kv => (lookupField a kv.1).isNone)

/-- The loop body of `_getActiveRules` acting on the registry rule whose id
matches the override: `enabled` is replaced when the override carries the
key at all (`!== undefined`), `severity` only when truthy (a non-empty
string), and `config` (an object, hence always truthy when present) is
shallow-merged. -/
def applyOverrideTo (ov : RuleOverride) (r : Rule) : Rule :=
  if r.id == ov.id then
    let r1 := match ov.enabled with
      | some e => { r with enabled := e }
      | none => r
    let r2 := match ov.severity with
      | some s => if s.isEmpty then r1 else { r1 with severity := s }
      | none => r1
    match ov.config with
      | some c => { r2 with config := mergeShallow r2.config c }
      | none => r2
  else r

/-- Applying every configured override to the registry, in order.  The
registry is a map keyed by rule id, so each override mutates at most the
one rule carrying its id; over a duplicate-free rule list the map below
does exactly that. -/
def applyOverrides (reg : List Rule) (ovs : List RuleOverride) : List Rule :=
  ovs.foldl (fun acc ov => acc.map (applyOverrideTo ov)) reg

/-- `QualityGate._getActiveRules`.  Modelled from the spec: the rule
registry module (`lib/quality-rules`) is not among the provided sources
(only its unit tests and its callers are), so `registry.getAll({enabled:
true})` and `registry.get(id)` follow the spec's contract — `getAll`
filters the catalogue, `get` finds by id.  The body is the source's
sequence: `getAll({enabled: true})` is evaluated FIRST (an array of live
references, here the ids of the rules enabled at that moment), then the
overrides mutate the registry, then `rules.filter(r => r.enabled)` re-reads
the (mutated) snapshot members. -/
def getActiveRules (reg : List Rule) (ovs : List RuleOverride) : List Rule :=
  let enabledIds := (reg.filter (fun r => r.enabled)).map (fun r => r.id)
  let mutated := applyOverrides reg ovs
  (mutated.filter (fun r => enabledIds.contains r.id)).filter (fun r => r.enabled)

/-- The active-rule set as the specification words it: "registry rules
filtered `enabled=true` after applying this gate's configuration
overrides".  Kept separate so the implementation above can be compared
against the spec's reading. -/
def specActiveRules (reg : List Rule) (ovs : List RuleOverride) : List Rule :=
  (applyOverrides reg ovs).filter (fun r => r.enabled)

/-! ## Validation errors (`lib/errors.js`) -/

/-- One normalized validation error
(`{path, message, severity, expected, actual, keyword, fix}`); fields the
producing site leaves out are `none`. -/
structure VErr where
  path : String
  message : String
  severity : String
  expected : Option String := none
  actual : Option JValue := none
  keyword : Option String := none
  fix : Option String := none
deriving Repr, BEq

/-- The `{valid, errors, warnings, fixes}` object `validate` returns. -/
structure ValidationResult where
  valid : Bool
  errors : List VErr
  warnings : List VErr
  fixes : List String
deriving Repr, BEq

/-- An error object as reported by the AJV backend.  The optional fields
stand for `error.schema?.*`, `error.params?.missingProperty` and
`error.data`, which the backend populates per keyword; an absent
`instancePath` and an absent `message` are represented by the empty string,
which JavaScript treats the same way (falsy) at every use site. -/
structure AjvError where
  instancePath : String := ""
  message : String := ""
  keyword : String := ""
  schemaType : Option String := none
  schemaEnum : Option (List String) := none
  schemaPattern : Option String := none
  schemaMinimum : Option Int := none
  schemaMaximum : Option Int := none
  schemaMinLength : Option Nat := none
  schemaMaxLength : Option Nat := none
  missingProperty : Option String := none
  data : Option JValue := none

/-- `getSeverityFromKeyword`: the fixed keyword-to-severity table, with
`warn` for anything unmapped. -/
def getSeverityFromKeyword (k : String) : String :=
  if k == "required" then "critical"
  else if k == "type" then "error"
  else if k == "enum" then "error"
  else if k == "pattern" then "warn"
  else if k == "format" then "warn"
  else if k == "minimum" then "warn"
  else if k == "maximum" then "warn"
  else if k == "minLength" then "warn"
  else if k == "maxLength" then "warn"
  else "warn"

/-- A JavaScript template literal renders an `undefined` interpolation as
the string `undefined`. -/
def jsTemplate (o : Option String) : String :=
  match o with
  | some s => s
  | none => "undefined"

/-- `generateFixFromError`: one suggestion string per known keyword, `null`
otherwise. -/
def generateFixFromError (e : AjvError) : Option String :=
  if e.keyword == "required" then
    some ("Add missing field: " ++ jsTemplate e.missingProperty)
  else if e.keyword == "pattern" then
    some ("Value must match pattern: " ++ jsTemplate e.schemaPattern)
  else if e.keyword == "enum" then
    some ("Value must be one of: " ++ jsTemplate (e.schemaEnum.map (String.intercalate ", ")))
  else if e.keyword == "type" then
    some ("Change type to: " ++ jsTemplate e.schemaType)
  else if e.keyword == "minimum" then
    some ("Value must be >= " ++ jsTemplate (e.schemaMinimum.map toString))
  else if e.keyword == "maximum" then
    some ("Value must be <= " ++ jsTemplate (e.schemaMaximum.map toString))
  else if e.keyword == "minLength" then
    some ("Length must be >= " ++ jsTemplate (e.schemaMinLength.map toString))
  else if e.keyword == "maxLength" then
    some ("Length must be <= " ++ jsTemplate (e.schemaMaxLength.map toString))
  else none

/-- The body of `parseAJVErrors` for one backend error:
`error.instancePath || 'root'`, `error.message || 'Validation failed'`, the
keyword-derived severity, `error.schema?.type || error.schema?.enum?.join('|')`
as the expected constraint, and the generated fix. -/
def parseAJVError (e : AjvError) : VErr :=
  { path := if e.instancePath.isEmpty then "root" else e.instancePath
    message := if e.message.isEmpty then "Validation failed" else e.message
    severity := getSeverityFromKeyword e.keyword
    expected :=
      match e.schemaType with
      | some t => if t.isEmpty then e.schemaEnum.map (String.intercalate "|") else some t
      | none => e.schemaEnum.map (String.intercalate "|")
    actual := e.data
    keyword := some e.keyword
    fix := generateFixFromError e }

/-- `parseAJVErrors` maps the backend's error array through the
normalization above. -/
def parseAJVErrors (es : List AjvError) : List VErr :=
  es.map parseAJVError

/-! ## Configuration validator (`lib/config-validator.js`) -/

/-- The three compiled schema validators the constructor builds when the
AJV backend is present (`this.configValidate`, `this.settingsValidate`,
`this.qualityGateValidate`).  Each takes a document and reports the
backend's error list (empty when the document conforms). -/
structure AjvBackend where
  config : JValue → List AjvError
  settings : JValue → List AjvError
  qualityGate : JValue → List AjvError

/-- `ConfigValidator._getValidator`: the object literal keyed by the three
schema names, `null` for anything else. -/
def getValidator (b : AjvBackend) (schemaName : String) :
    Option (JValue → List AjvError) :=
  if schemaName == "config" then some b.config
  else if schemaName == "settings" then some b.settings
  else if schemaName == "quality-gate" then some b.qualityGate
  else none

/-- The result `validate` returns for an unrecognized schema name. -/
def unknownSchemaResult (schemaName : String) : ValidationResult :=
  { valid := false
    errors := [{ path := "schema"
                 message := "Unknown schema: " ++ schemaName
                 severity := "critical"
                 fix := some "Use valid schema name: config, settings, quality-gate" }]
    warnings := []
    fixes := [] }

/-- The error-processing loop of `validate`: `warn`/`info` severities go to
`warnings`, everything else to `errors`, and each truthy `fix` is collected
in order. -/
def bucketAjvErrors (parsed : List VErr) : ValidationResult :=
  { valid := false
    errors := parsed.filter (fun e => !(e.severity == "warn" || e.severity == "info"))
    warnings := parsed.filter (fun e => e.severity == "warn" || e.severity == "info")
    fixes := (parsed.filterMap (fun e => e.fix)).filter (fun f => !f.isEmpty) }

/-- `ConfigValidator.validate` when the AJV backend is available: dispatch
on the schema name, report the unknown-schema error for anything outside
the three compiled validators, and otherwise run the compiled validator
and process its errors through `parseAJVErrors`. -/
def validateAjv (b : AjvBackend) (config : JValue) (schemaName : String) :
    ValidationResult :=
  match getValidator b schemaName with
  | none => unknownSchemaResult schemaName
  | some v =>
    let errs := v config
    if errs.isEmpty then { valid := true, errors := [], warnings := [], fixes := [] }
    else bucketAjvErrors (parseAJVErrors errs)

/-- Test of `/^\d+\.\d+\.\d+/` (the fallback's `version` pattern, anchored
only at the start): digits, a dot, digits, a dot, and at least one more
digit. -/
def semverPrefixTest (s : String) : Bool :=
  match s.data with
  | c1 :: rest1 =>
    if c1.isDigit then
      match rest1.dropWhile Char.isDigit with
      | '.' :: c2 :: rest2 =>
        if c2.isDigit then
          match rest2.dropWhile Char.isDigit with
          | '.' :: c3 :: _ => c3.isDigit
          | _ => false
        else false
      | _ => false
    else false
  | [] => false

/-- The error `_basicValidate` pushes for a non-object document. -/
def basicRootErr : VErr :=
  { path := "root"
    message := "Configuration must be an object"
    severity := "critical"
    fix := some "Ensure config is valid JSON object" }

/-- The error `_basicValidate` pushes when `config.version` is missing
(or falsy). -/
def basicVersionMissingErr : VErr :=
  { path := "version"
    message := "Missing required field: version"
    severity := "critical"
    fix := some "Add \"version\": \"1.0.0\" to config" }

/-- The error `_basicValidate` pushes for a malformed `version` string. -/
def basicVersionFormatErr (v : JValue) : VErr :=
  { path := "version"
    message := "Invalid version format"
    severity := "error"
    expected := some "X.Y.Z"
    actual := some v
    fix := some "Use semantic version format (e.g., 1.0.0)" }

/-- `ConfigValidator._basicValidate`, the fallback used when the AJV
backend is absent: reject non-objects (`!config || typeof config !==
'object'`), then for the `config` schema only check that `version` is
present/truthy and, when it is a string, that it matches the semantic
version prefix pattern.  No other schema name triggers any check and
`fixes` is never populated. -/
def basicValidate (config : JValue) (schemaName : String) : ValidationResult :=
  if !jsTruthy config || !isJsObjectType config then
    { valid := false, errors := [basicRootErr], warnings := [], fixes := [] }
  else if schemaName == "config" then
    let version := getProp config "version"
    if !jsTruthyOpt version then
      { valid := false, errors := [basicVersionMissingErr], warnings := [], fixes := [] }
    else
      match version with
      | some (JValue.str s) =>
        if !semverPrefixTest s then
          { valid := false, errors := [basicVersionFormatErr (JValue.str s)],
            warnings := [], fixes := [] }
        else { valid := true, errors := [], warnings := [], fixes := [] }
      | _ => { valid := true, errors := [], warnings := [], fixes := [] }
  else { valid := true, errors := [], warnings := [], fixes := [] }

/-- `ConfigValidator.validate`: the fallback when no backend was loaded
(`this.ajv` is null), the AJV path otherwise. -/
def validateFull (backend : Option AjvBackend) (config : JValue)
    (schemaName : String) : ValidationResult :=
  match backend with
  | none => basicValidate config schemaName
  | some b => validateAjv b config schemaName

/-- The payload of a thrown `ConfigError`: the message together with the
validation result's error and fix lists (its `details` merely recounts
them). -/
structure ConfigErrorData where
  message : String
  errors : List VErr
  fixes : List String
deriving Repr, BEq

/-- `ConfigValidator.validateOrThrow`: run `validate`; throw a
`ConfigError` carrying the full error and fix lists when invalid, return
the input document itself otherwise. -/
def validateOrThrow (backend : Option AjvBackend) (config : JValue)
    (schemaName : String) : Except ConfigErrorData JValue :=
  let result := validateFull backend config schemaName
  if result.valid then Except.ok config
  else Except.error { message := "Configuration validation failed"
                      errors := result.errors
                      fixes := result.fixes }

/-- The error object the AJV backend reports for a `config` document whose
top-level required `version` field is missing: an empty `instancePath`
(the violation is at the document root), keyword `required`, the field
name in `params.missingProperty`.  This shape is pinned by the
repository's own `parseAJVErrors` unit tests, which feed exactly such an
object for a missing required property. -/
def ajvRequiredVersionError : AjvError :=
  { instancePath := ""
    message := "must have required property 'version'"
    keyword := "required"
    missingProperty := some "version" }

/-! ## Schemas (`lib/config-schema.js`)

Modelled from the spec: the schema objects themselves are repository data
(`CONFIG_SCHEMA`, `SETTINGS_SCHEMA`, `QUALITY_GATE_SCHEMA`), but the
engine interpreting them is the external AJV backend; the spec allows it
to be "reimplemented minimally for the recognized constructs actually
used: required, type, enum, pattern, min/max, nested object/array
validation".  The checkers below implement exactly the constraints those
three schema objects declare. -/

/-- `type: 'string'` in JSON Schema. -/
def isString (v : JValue) : Bool :=
  match v with
  | JValue.str _ => true
  | _ => false

/-- `type: 'boolean'` in JSON Schema. -/
def isBool (v : JValue) : Bool :=
  match v with
  | JValue.bool _ => true
  | _ => false

/-- `type: 'object'` in JSON Schema (maps only; unlike JavaScript's
`typeof`, arrays and `null` are not objects). -/
def isSchemaObject (v : JValue) : Bool :=
  match v with
  | JValue.obj _ => true
  | _ => false

/-- `type: 'integer'` (or `'number'`, numbers being modelled as integers)
with `minimum`/`maximum` bounds. -/
def isIntBetween (lo hi : Int) (v : JValue) : Bool :=
  match v with
  | JValue.num n => lo ≤ n && n ≤ hi
  | _ => false

/-- `type: 'array', items: {type: 'string'}`. -/
def isStringArray (v : JValue) : Bool :=
  match v with
  | JValue.arr xs => xs.all isString
  | _ => false

/-- The version pattern `^\d+\.\d+\.\d+(-[a-zA-Z0-9.]+)?$` of
`CONFIG_SCHEMA.properties.version`. -/
def versionPatternTest (cs : List Char) : Bool :=
  match cs with
  | c1 :: rest1 =>
    if c1.isDigit then
      match rest1.dropWhile Char.isDigit with
      | '.' :: c2 :: rest2 =>
        if c2.isDigit then
          match rest2.dropWhile Char.isDigit with
          | '.' :: c3 :: rest3 =>
            if c3.isDigit then
              match rest3.dropWhile Char.isDigit with
              | [] => true
              | '-' :: suffix =>
                !suffix.isEmpty && suffix.all (fun c => c.isAlphanum || c == '.')
              | _ => false
            else false
          | _ => false
        else false
      | _ => false
    else false
  | [] => false

/-- `version`: a string matching the semantic-version pattern. -/
def versionCheck (v : JValue) : Bool :=
  match v with
  | JValue.str s => versionPatternTest s.data
  | _ => false

/-- The `model` enum of `CONFIG_SCHEMA`. -/
def modelEnum : List String :=
  ["claude-opus-4.5", "claude-opus-4-20250514", "claude-opus-4-5-20251101",
   "claude-sonnet-4.5", "claude-sonnet-4-20250514", "claude-sonnet-4-5-20251101",
   "claude-haiku-4.5"]

/-- `model`: a string drawn from the model enum. -/
def modelCheck (v : JValue) : Bool :=
  match v with
  | JValue.str s => modelEnum.contains s
  | _ => false

/-- The agent-name pattern `^[a-z][a-z0-9-]*$` of
`CONFIG_SCHEMA.properties.agents.patternProperties`. -/
def agentKeyPat (cs : List Char) : Bool :=
  match cs with
  | c :: rest => c.isLower && rest.all (fun d => d.isLower || d.isDigit || d == '-')
  | [] => false

/-- The per-agent subschema: an object with a required non-empty `role`
string and an optional `model` string (`additionalProperties: true`). -/
def agentSubCheck (v : JValue) : Bool :=
  match v with
  | JValue.obj fs =>
    (lookupField fs "role").isSome &&
    fs.all (fun kv =>
      if kv.1 == "role" then
        (match kv.2 with
         | JValue.str s => !s.isEmpty
         | _ => false)
      else if kv.1 == "model" then isString kv.2
      else true)
  | _ => false

/-- `agents`: an object whose keys matching the agent-name pattern carry
agent subschemas (`additionalProperties: true` for the rest). -/
def agentsCheck (v : JValue) : Bool :=
  match v with
  | JValue.obj fs =>
    fs.all (fun kv => if agentKeyPat kv.1.data then agentSubCheck kv.2 else true)
  | _ => false

/-- The skill-repository pattern `^[a-zA-Z0-9_-]+/[a-zA-Z0-9_.-]+$`. -/
def skillPatTest (cs : List Char) : Bool :=
  let ownerChar := fun (c : Char) => c.isAlphanum || c == '_' || c == '-'
  let nameChar := fun (c : Char) => c.isAlphanum || c == '_' || c == '.' || c == '-'
  let owner := cs.takeWhile ownerChar
  match cs.dropWhile ownerChar with
  | '/' :: rest => !owner.isEmpty && !rest.isEmpty && rest.all nameChar
  | _ => false

/-- `skills`: an array of pattern-matching strings with `uniqueItems`. -/
def skillsCheck (v : JValue) : Bool :=
  match v with
  | JValue.arr xs =>
    xs.all (fun x =>
      match x with
      | JValue.str s => skillPatTest s.data
      | _ => false)
    && xs.Pairwise (fun a b => (a == b) = false)
  | _ => false

/-- `hooks`: an object whose `preTask`/`postTask` entries are string
arrays (`additionalProperties: true`). -/
def hooksCheck (v : JValue) : Bool :=
  match v with
  | JValue.obj fs =>
    fs.all (fun kv =>
      if kv.1 == "preTask" || kv.1 == "postTask" then isStringArray kv.2 else true)
  | _ => false

/-- `thinkingLens`: booleans plus a `syncInterval` integer in 1..300. -/
def thinkingLensCheck (v : JValue) : Bool :=
  match v with
  | JValue.obj fs =>
    fs.all (fun kv =>
      if kv.1 == "enabled" then isBool kv.2
      else if kv.1 == "autoSync" then isBool kv.2
      else if kv.1 == "syncInterval" then isIntBetween 1 300 kv.2
      else true)
  | _ => false

/-- The severity enum shared by the quality-gate schemas. -/
def severityEnum : List String := ["info", "warn", "error", "critical"]

/-- `severity`: a string drawn from the severity enum. -/
def severityEnumCheck (v : JValue) : Bool :=
  match v with
  | JValue.str s => severityEnum.contains s
  | _ => false

/-- A rule entry of `CONFIG_SCHEMA.properties.qualityGate.rules`: required
`id`, typed `id`/`enabled`/`severity`/`config` fields. -/
def qgConfigRuleItemCheck (v : JValue) : Bool :=
  match v with
  | JValue.obj fs =>
    (lookupField fs "id").isSome &&
    fs.all (fun kv =>
      if kv.1 == "id" then isString kv.2
      else if kv.1 == "enabled" then isBool kv.2
      else if kv.1 == "severity" then severityEnumCheck kv.2
      else if kv.1 == "config" then isSchemaObject kv.2
      else true)
  | _ => false

/-- `gates`: the three boolean trigger flags (`additionalProperties:
true`). -/
def gatesCheck (v : JValue) : Bool :=
  match v with
  | JValue.obj fs =>
    fs.all (fun kv =>
      if kv.1 == "preCommit" || kv.1 == "prePush" || kv.1 == "onToolUse" then isBool kv.2
      else true)
  | _ => false

/-- The report-format enum. -/
def reportFormatEnum : List String := ["console", "json", "markdown", "html"]

/-- `reporting`: a format from the enum and a string `outputFile`
(`additionalProperties: true`). -/
def reportingCheck (v : JValue) : Bool :=
  match v with
  | JValue.obj fs =>
    fs.all (fun kv =>
      if kv.1 == "format" then
        (match kv.2 with
         | JValue.str s => reportFormatEnum.contains s
         | _ => false)
      else if kv.1 == "outputFile" then isString kv.2
      else true)
  | _ => false

/-- The `qualityGate` property of `CONFIG_SCHEMA`. -/
def qualityGatePropCheck (v : JValue) : Bool :=
  match v with
  | JValue.obj fs =>
    fs.all (fun kv =>
      if kv.1 == "enabled" then isBool kv.2
      else if kv.1 == "severity" then severityEnumCheck kv.2
      else if kv.1 == "rules" then
        (match kv.2 with
         | JValue.arr xs => xs.all qgConfigRuleItemCheck
         | _ => false)
      else if kv.1 == "gates" then gatesCheck kv.2
      else if kv.1 == "reporting" then reportingCheck kv.2
      else true)
  | _ => false

/-- The `marketplace` property of `CONFIG_SCHEMA` (`sources` items carry
`format: 'uri'`, a format annotation left to the optional formats plugin
and not a structural constraint modelled here). -/
def marketplaceCheck (v : JValue) : Bool :=
  match v with
  | JValue.obj fs =>
    fs.all (fun kv =>
      if kv.1 == "enabled" then isBool kv.2
      else if kv.1 == "autoSync" then isBool kv.2
      else if kv.1 == "syncInterval" then isIntBetween 1 1440 kv.2
      else if kv.1 == "sources" then isStringArray kv.2
      else true)
  | _ => false

/-- A top-level schema: required field names, named property subschemas,
pattern properties, with unknown fields tolerated (`additionalProperties:
true` in all three schema objects). -/
structure TopSchema where
  required : List String
  props : List (String × (JValue → Bool))
  patternProps : List ((String → Bool) × (JValue → Bool)) := []

/-- The top-level JSON-Schema semantics for the constructs the three
schemas use: the document is an object, every required field is present,
every field named in `properties` satisfies its subschema, and every field
matching a `patternProperties` pattern satisfies that pattern's subschema;
fields matching neither are tolerated. -/
def checkTopLevel (ts : TopSchema) (doc : JValue) : Bool :=
  match doc with
  | JValue.obj fields =>
    ts.required.all (fun r => (lookupField fields r).isSome) &&
    fields.all (fun kv =>
      (match ts.props.find? (fun p => p.1 == kv.1) with
       | some p => p.2 kv.2
       | none => true) &&
      (ts.patternProps.filter (fun pp => pp.1 kv.1)).all (fun pp => pp.2 kv.2))
  | _ => false

/-- `CONFIG_SCHEMA`: `required: ['version']` and the eight declared
top-level properties; `additionalProperties: true`. -/
def configTop : TopSchema :=
  { required := ["version"]
    props := [("version", versionCheck), ("model", modelCheck),
              ("agents", agentsCheck), ("skills", skillsCheck),
              ("hooks", hooksCheck), ("thinkingLens", thinkingLensCheck),
              ("qualityGate", qualityGatePropCheck),
              ("marketplace", marketplaceCheck)] }

/-- The hook-event names of `SETTINGS_SCHEMA`'s pattern
`^(UserPromptSubmit|PreToolUse|PostToolUse|AgentStop|SessionEnd)$`. -/
def hookEventNames : List String :=
  ["UserPromptSubmit", "PreToolUse", "PostToolUse", "AgentStop", "SessionEnd"]

/-- A command hook of `SETTINGS_SCHEMA`: required `type`/`command`, `type`
drawn from the one-element enum, integer `timeout` in 100..60000
(`additionalProperties: true`). -/
def hookCmdCheck (v : JValue) : Bool :=
  match v with
  | JValue.obj fs =>
    (lookupField fs "type").isSome && (lookupField fs "command").isSome &&
    fs.all (fun kv =>
      if kv.1 == "type" then
        (match kv.2 with
         | JValue.str s => s == "command"
         | _ => false)
      else if kv.1 == "command" then isString kv.2
      else if kv.1 == "timeout" then isIntBetween 100 60000 kv.2
      else true)
  | _ => false

/-- One entry of a hook-event array: required `hooks` array of command
hooks, `matcher` either a string or an object (`oneOf`). -/
def eventEntryCheck (v : JValue) : Bool :=
  match v with
  | JValue.obj fs =>
    (lookupField fs "hooks").isSome &&
    fs.all (fun kv =>
      if kv.1 == "matcher" then (isString kv.2 || isSchemaObject kv.2)
      else if kv.1 == "hooks" then
        (match kv.2 with
         | JValue.arr xs => xs.all hookCmdCheck
         | _ => false)
      else true)
  | _ => false

/-- The subschema attached to each hook-event pattern property. -/
def eventArrayCheck (v : JValue) : Bool :=
  match v with
  | JValue.arr xs => xs.all eventEntryCheck
  | _ => false

/-- `SETTINGS_SCHEMA`: no required fields, no named properties, one
pattern property for the hook-event names; `additionalProperties: true`. -/
def settingsTop : TopSchema :=
  { required := []
    props := []
    patternProps := [(fun k => hookEventNames.contains k, eventArrayCheck)] }

/-- A rule entry of `QUALITY_GATE_SCHEMA.rules` (this variant also
declares `name`). -/
def qgStandaloneRuleItemCheck (v : JValue) : Bool :=
  match v with
  | JValue.obj fs =>
    (lookupField fs "id").isSome &&
    fs.all (fun kv =>
      if kv.1 == "id" then isString kv.2
      else if kv.1 == "name" then isString kv.2
      else if kv.1 == "enabled" then isBool kv.2
      else if kv.1 == "severity" then severityEnumCheck kv.2
      else if kv.1 == "config" then isSchemaObject kv.2
      else true)
  | _ => false

/-- `QUALITY_GATE_SCHEMA`: the five declared top-level properties, no
required fields; `additionalProperties: true`. -/
def qualityGateTop : TopSchema :=
  { required := []
    props := [("enabled", isBool), ("severity", severityEnumCheck),
              ("rules", fun v =>
                 match v with
                 | JValue.arr xs => xs.all qgStandaloneRuleItemCheck
                 | _ => false),
              ("gates", gatesCheck), ("reporting", reportingCheck)] }

/-- The schema selected for each recognized schema name (the same mapping
`_getValidator` uses). -/
def topSchemaOfName (s : String) : Option TopSchema :=
  if s == "config" then some configTop
  else if s == "settings" then some settingsTop
  else if s == "quality-gate" then some qualityGateTop
  else none

/-! ## Counting helpers for the crash-isolation claim -/

/-- Whether a rule invocation threw. -/
def isThrow (x : Except String RuleOutcome) : Bool :=
  match x with
  | Except.error _ => true
  | Except.ok _ => false

/-- The number of (file, enabled rule) pairs whose check throws over the
given file and rule sets. -/
def countCrashes (files : List String) (rules : List Rule) : Nat :=
  (files.map (fun f =>
    (rules.filter (fun r => r.enabled)).countP
      (fun r => isThrow (r.check f r.config)))).sum

/-- The number of (file, enabled rule) pairs whose check succeeds while the
rule itself carries severity `error` (those rows also land in the
summary's `error` bucket). -/
def countOkErrorSeverity (files : List String) (rules : List Rule) : Nat :=
  (files.map (fun f =>
    (rules.filter (fun r => r.enabled)).countP
      (fun r => !isThrow (r.check f r.config) && r.severity == "error"))).sum

/-! ## Concrete instances used by counterexamples and witnesses -/

/-- An always-enabled rule of severity `info` whose check reports a
non-passing, non-skipped issue. -/
def infoRule : Rule :=
  { id := "info-rule"
    name := "Info Rule"
    severity := "info"
    enabled := true
    config := []
    check := fun _ _ => Except.ok { pass := false, message := "informational issue" } }

/-- An always-enabled rule of severity `warn` whose check reports a
skipped result. -/
def skippingRule : Rule :=
  { id := "skip-rule"
    name := "Skip Rule"
    severity := "warn"
    enabled := true
    config := []
    check := fun _ _ => Except.ok { pass := true, message := "not applicable", skip := true } }

/-- An always-enabled rule of severity `warn` whose check throws. -/
def crashingRule : Rule :=
  { id := "crash-rule"
    name := "Crash Rule"
    severity := "warn"
    enabled := true
    config := []
    check := fun _ _ => Except.error "boom" }

/-- An always-enabled rule of severity `warn` whose check passes. -/
def passingRule : Rule :=
  { id := "pass-rule"
    name := "Pass Rule"
    severity := "warn"
    enabled := true
    config := []
    check := fun _ _ => Except.ok { pass := true, message := "ok" } }

/-- A registry rule that is disabled in the registry itself. -/
def disabledRule : Rule :=
  { id := "r1"
    name := "Rule One"
    severity := "warn"
    enabled := false
    config := []
    check := fun _ _ => Except.ok { pass := true, message := "ok" } }

/-- A gate-configuration override that enables the rule `r1`. -/
def enableOverride : RuleOverride :=
  { id := "r1", enabled := some true }

/-- A document with no `version` field. -/
def noVersionDoc : JValue :=
  JValue.obj [("model", JValue.str "test")]

/-- The error object the AJV backend reports for a `model` value outside
`CONFIG_SCHEMA`'s enum: `instancePath` is the JSON pointer `/model`,
keyword `enum`, the allowed values in `schema.enum` and the offending
value in `data`. -/
def modelEnumAjvError (m : JValue) : AjvError :=
  { instancePath := "/model"
    message := "must be equal to one of the allowed values"
    keyword := "enum"
    schemaEnum := some modelEnum
    data := some m }

/-- A concrete compiled-validator instance for the `config` schema used
only to instantiate theorems: it enforces the two `CONFIG_SCHEMA`
constraints the concrete documents below violate (the top-level
`required: ['version']` and the `model` enum) and is NOT a complete model
of the compiled backend — the theorems about the backend-available branch
quantify over every backend and constrain it by explicit hypotheses
instead of relying on this instance. -/
def demoConfigValidator (doc : JValue) : List AjvError :=
  match doc with
  | JValue.obj fields =>
    (if (lookupField fields "version").isNone then [ajvRequiredVersionError] else [])
      ++ (match lookupField fields "model" with
          | some m => if modelCheck m then [] else [modelEnumAjvError m]
          | none => [])
  | _ =>
    [{ instancePath := ""
       message := "must be object"
       keyword := "type"
       schemaType := some "object"
       data := some doc }]

/-- A concrete backend built from the demonstration validator; its
`settings` and `quality-gate` members are placeholders that no theorem
ever invokes (the one statement naming this backend outside `config`
validation exercises only the unknown-schema dispatch, where no validator
runs). -/
def demoConfigBackend : AjvBackend :=
  { config := demoConfigValidator
    settings := fun _ => []
    qualityGate := fun _ => [] }

/-- The top-level fields of a minimal valid configuration document. -/
def demoFields : List (String × JValue) :=
  [("version", JValue.str "1.0.0")]

/-! ## Helper lemmas -/

lemma list_sum_map_const {α : Type} (l : List α) (k : Nat) :
    (l.map (fun _ => k)).sum = l.length * k := by
  induction l with
  | nil => simp
  | cons a t ih => simp [ih, Nat.succ_mul, Nat.add_comm]

lemma list_sum_map_add {α : Type} (l : List α) (f g : α → Nat) :
    (l.map (fun a => f a + g a)).sum = (l.map f).sum + (l.map g).sum := by
  induction l with
  | nil => simp
  | cons a t ih => simp [ih]; omega

lemma beq_false_eq_not (a : Bool) : (a == false) = !a := by
  cases a <;> rfl

/-! ## Claim theorems -/

/-- C10: on every `QualityGate.check` invocation the returned summary's
`total` is the length of the returned `results` array, `filesChecked` the
size of the resolved file set, and `rulesRun` the size of the resolved
active rule set. -/
theorem summary_counts_consistent (fsExists : String → Bool) (files : List String)
    (rules : List Rule) (sev : String) :
    (qualityCheck fsExists files rules sev).summary.total
        = (qualityCheck fsExists files rules sev).results.length
      ∧ (qualityCheck fsExists files rules sev).summary.filesChecked = files.length
      ∧ (qualityCheck fsExists files rules sev).summary.rulesRun = rules.length :=
  ⟨rfl, rfl, rfl⟩

/-- C9: a file absent from the file system yields exactly the single
synthetic `file-exists` result — severity `error`, `pass` false, message
`File not found` — independently of the rule set (no rule's check runs),
both at the `_checkFile` level and for a whole `check` run over that
file. -/
theorem missing_file_single_result (fsExists : String → Bool) (f : String)
    (h : fsExists f = false) :
    (∀ rules : List Rule, checkFile fsExists f rules = [fileNotFoundResult f])
      ∧ (∀ (rules : List Rule) (sev : String),
          (qualityCheck fsExists [f] rules sev).results = [fileNotFoundResult f])
      ∧ (fileNotFoundResult f).rule = "file-exists"
      ∧ (fileNotFoundResult f).severity = "error"
      ∧ (fileNotFoundResult f).pass = false
      ∧ (fileNotFoundResult f).message = "File not found" := by
  refine ⟨fun rules => ?_, fun rules sev => ?_, rfl, rfl, rfl, rfl⟩
  · simp [checkFile, h]
  · simp [qualityCheck, checkFile, h]

/-- Witness for C9 at a concrete absent file. -/
theorem missing_file_single_result_witness :
    ((fun (_ : String) => false) "missing.js" = false)
      ∧ ((∀ rules : List Rule,
            checkFile (fun _ => false) "missing.js" rules
              = [fileNotFoundResult "missing.js"])
          ∧ (∀ (rules : List Rule) (sev : String),
              (qualityCheck (fun _ => false) ["missing.js"] rules sev).results
                = [fileNotFoundResult "missing.js"])
          ∧ (fileNotFoundResult "missing.js").rule = "file-exists"
          ∧ (fileNotFoundResult "missing.js").severity = "error"
          ∧ (fileNotFoundResult "missing.js").pass = false
          ∧ (fileNotFoundResult "missing.js").message = "File not found") :=
  ⟨rfl, missing_file_single_result (fun _ => false) "missing.js" rfl⟩

/-- C1: the claim reads the pass/fail decision through the ordering
`info(0) < warn(1) < error(2) < critical(3)`; in the code
`levels[severity] || 1` collapses `info` onto level 1 (0 is falsy), so an
info-severity threshold does not rank strictly below `warn`, and a run
whose only issue has severity `info` is blocked under the `warn`
threshold where the claimed ordering would let it pass. -/
theorem qualityGate_info_severity_code_bug :
    severityLevel "info" = 1
      ∧ severityLevel "warn" = 1
      ∧ (qualityCheck (fun _ => true) ["a.js"] [infoRule] "warn").passed = false :=
  ⟨rfl, rfl, rfl⟩

/-- C2 counterexample: a run whose single result is skipped still counts
it in the summary's `warn` tally (the switch in `check` has no skip
guard), so a skipped result does contribute to the per-severity counts. -/
theorem skipped_results_counted_counterexample :
    (qualityCheck (fun _ => true) ["a.js"] [skippingRule] "warn").summary.warn = 1
      ∧ (qualityCheck (fun _ => true) ["a.js"] [skippingRule] "warn").results.all
          (fun r => r.skip) = true
      ∧ (qualityCheck (fun _ => true) ["a.js"] [skippingRule] "warn").passed = true :=
  ⟨rfl, rfl, rfl⟩

/-- C2 amended: a skipped result never contributes to the pass/fail
decision (the gate's verdict is the one computed over the non-skipped
results alone), but it does contribute to the per-severity counts of the
summary, which tally every returned result. -/
theorem skipped_results_amended (fsExists : String → Bool) (files : List String)
    (rules : List Rule) (sev : String) :
    (qualityCheck fsExists files rules sev).passed
        = !(((qualityCheck fsExists files rules sev).results.filter
              (fun r => !r.skip)).any
            (fun r => !r.pass && decide (severityLevel r.severity ≥ severityLevel sev)))
      ∧ (qualityCheck fsExists files rules sev).summary.critical
          = (qualityCheck fsExists files rules sev).results.countP
              (fun r => r.severity == "critical")
      ∧ (qualityCheck fsExists files rules sev).summary.error
          = (qualityCheck fsExists files rules sev).results.countP
              (fun r => r.severity == "error")
      ∧ (qualityCheck fsExists files rules sev).summary.warn
          = (qualityCheck fsExists files rules sev).results.countP
              (fun r => r.severity == "warn")
      ∧ (qualityCheck fsExists files rules sev).summary.info
          = (qualityCheck fsExists files rules sev).results.countP
              (fun r => r.severity == "info") := by
  have key : ∀ (l : List RuleResult) (m : Nat),
      hasBlockingIssues l m
        = (l.filter (fun r => !r.skip)).any
            (fun r => !r.pass && decide (severityLevel r.severity ≥ m)) := by
    intro l m
    rw [List.any_filter]
    unfold hasBlockingIssues
    congr 1
    funext r
    cases r.pass <;> cases r.skip <;> simp
  refine ⟨?_, rfl, rfl, rfl, rfl⟩
  show (hasBlockingIssues _ _ == false) = _
  rw [beq_false_eq_not, key]
  rfl

/-- C6 counterexample: a rule disabled in the registry and enabled by a
gate-configuration override is NOT part of the active rule set —
`getAll({enabled: true})` snapshots the enabled rules before the
overrides run — although the spec's reading ("filtered `enabled=true`
after applying the overrides") would include it. -/
theorem override_enable_disabled_rule_counterexample :
    (getActiveRules [disabledRule] [enableOverride]).map (fun r => r.id) = []
      ∧ (specActiveRules [disabledRule] [enableOverride]).map (fun r => r.id) = ["r1"] :=
  ⟨rfl, rfl⟩

/-- C6 amended: with no explicit `rules` argument the active rule set
consists of exactly those rules that were enabled in the registry before
the gate's configuration overrides were applied AND are still enabled
after they were applied (carrying the overridden severity and merged
config); in particular a rule disabled in the registry but enabled by an
override is excluded. -/
theorem active_rules_amended (reg : List Rule) (ovs : List RuleOverride) (r : Rule) :
    r ∈ getActiveRules reg ovs
      ↔ (r ∈ applyOverrides reg ovs ∧ r.enabled = true
          ∧ ∃ r₀ ∈ reg, r₀.enabled = true ∧ r₀.id = r.id) := by
  unfold getActiveRules
  simp only [List.mem_filter, List.contains, List.elem_iff, List.mem_map, List.mem_filter]
  constructor
  · rintro ⟨⟨hm, r0, ⟨hr0, he0⟩, hid⟩, he⟩
    exact ⟨hm, he, r0, hr0, he0, hid⟩
  · rintro ⟨hm, he, r0, hr0, he0, hid⟩
    exact ⟨⟨hm, r0, ⟨hr0, he0⟩, hid⟩, he⟩

/-- C7: `validateOrThrow` returns exactly the input document when
`validate` reports it valid, and otherwise throws a `ConfigError` whose
payload carries the full error list and full fix list of that validation
result — in both the backend-available and the fallback branch (the
`backend` argument ranges over both). -/
theorem validateOrThrow_spec (b : Option AjvBackend) (c : JValue) (s : String) :
    (validateOrThrow b c s = Except.ok c ↔ (validateFull b c s).valid = true)
      ∧ (∀ d, validateOrThrow b c s = Except.error d
          ↔ ((validateFull b c s).valid = false
              ∧ d = { message := "Configuration validation failed"
                      errors := (validateFull b c s).errors
                      fixes := (validateFull b c s).fixes })) := by
  unfold validateOrThrow
  cases h : (validateFull b c s).valid <;> simp [h, eq_comm]

/-- C5: with the AJV backend absent, `_basicValidate` performs no
schema-name dispatch at all, so an unknown schema name is accepted
(`valid: true`, no errors) — contradicting both the claim and the
repository's own unit test, which expects a single critical error at path
`schema`; the backend-available branch does behave as claimed. -/
theorem unknown_schema_fallback_code_bug :
    validateFull none (JValue.obj [("test", JValue.str "value")]) "unknown-schema"
        = { valid := true, errors := [], warnings := [], fixes := [] }
      ∧ validateFull (some demoConfigBackend) (JValue.obj [("test", JValue.str "value")])
          "unknown-schema" = unknownSchemaResult "unknown-schema" :=
  ⟨rfl, rfl⟩

/-- C4 counterexample: in the backend-available branch a document missing
`version` does not place its critical error at path `version`: AJV reports
the missing top-level required property with an empty `instancePath`,
which `parseAJVErrors` maps to `root`, and at this input the error list
also carries the `/model` enum violation — so the critical-severity
entries are one entry at `root`, not one at `version`. -/
theorem missing_version_ajv_path_counterexample :
    (validateFull (some demoConfigBackend) noVersionDoc "config").valid = false
      ∧ ((validateFull (some demoConfigBackend) noVersionDoc "config").errors.filter
          (fun e => e.severity == "critical" && e.path == "version")).length = 0
      ∧ (((validateFull (some demoConfigBackend) noVersionDoc "config").errors.filter
          (fun e => e.severity == "critical")).map (fun e => e.path)) = ["root"]
      ∧ ((validateFull (some demoConfigBackend) noVersionDoc "config").errors.map
          (fun e => e.path)) = ["root", "/model"] :=
  ⟨rfl, rfl, rfl, rfl⟩

/-- C4 amended: for every object document lacking `version`,
`validate(D, "config")` is invalid in both branches.  In the fallback
path the critical-severity entries consist of exactly one entry with
path `version`.  In the AJV path — for every backend that reports the
standard missing-required error (empty `instancePath`, keyword
`required`) among its violations and whose instance paths are JSON
pointers (empty at the document root, slash-prefixed below it; both
facts pinned by the repository's `parseAJVErrors` tests) — the error
list contains a critical entry for the missing version whose path is
`root`, with fix `Add missing field: version`, and no error entry at all
has path `version`. -/
theorem missing_version_amended (fields : List (String × JValue)) (b : AjvBackend)
    (hmem : ajvRequiredVersionError ∈ b.config (JValue.obj fields))
    (hptr : ∀ e ∈ b.config (JValue.obj fields),
        e.instancePath = "" ∨ e.instancePath.data.head? = some '/')
    (hver : lookupField fields "version" = none) :
    (validateFull none (JValue.obj fields) "config").valid = false
      ∧ (validateFull none (JValue.obj fields) "config").errors.filter
          (fun e => e.severity == "critical") = [basicVersionMissingErr]
      ∧ (validateFull (some b) (JValue.obj fields) "config").valid = false
      ∧ parseAJVError ajvRequiredVersionError
          ∈ (validateFull (some b) (JValue.obj fields) "config").errors
      ∧ (parseAJVError ajvRequiredVersionError).path = "root"
      ∧ (parseAJVError ajvRequiredVersionError).severity = "critical"
      ∧ (parseAJVError ajvRequiredVersionError).fix = some "Add missing field: version"
      ∧ (∀ e ∈ (validateFull (some b) (JValue.obj fields) "config").errors,
          e.path ≠ "version") := by
  have hie : (b.config (JValue.obj fields)).isEmpty = false := by
    cases hl : b.config (JValue.obj fields) with
    | nil => rw [hl] at hmem; exact absurd hmem (List.not_mem_nil _)
    | cons a t => rfl
  have hbranch : validateFull (some b) (JValue.obj fields) "config"
      = bucketAjvErrors (parseAJVErrors (b.config (JValue.obj fields))) := by
    simp [validateFull, validateAjv, getValidator, hie]
  refine ⟨?_, ?_, ?_, ?_, rfl, rfl, rfl, ?_⟩
  · simp [validateFull, basicValidate, getProp, jsTruthy, isJsObjectType,
      jsTruthyOpt, hver]
  · simp [validateFull, basicValidate, getProp, jsTruthy, isJsObjectType,
      jsTruthyOpt, hver, basicVersionMissingErr]
  · rw [hbranch]; rfl
  · rw [hbranch]
    refine List.mem_filter.mpr ⟨?_, by decide⟩
    exact List.mem_map_of_mem parseAJVError hmem
  · intro e he
    rw [hbranch] at he
    obtain ⟨a, ha, rfl⟩ := List.mem_map.mp (List.mem_filter.mp he).1
    show (if a.instancePath.isEmpty then "root" else a.instancePath) ≠ "version"
    cases hia : a.instancePath.isEmpty with
    | true => simp
    | false =>
      simp only [hia, Bool.false_eq_true, if_false]
      rcases hptr a ha with h0 | hsl
      · rw [h0] at hia; exact absurd hia (by decide)
      · intro heq
        rw [heq] at hsl
        exact absurd hsl (by decide)

/-- Witness for the amended C4: the demonstration backend at a concrete
versionless document satisfies both backend hypotheses (it reports the
missing-required error, and its instance paths are the pointers at the
root and at `/model`). -/
theorem missing_version_amended_witness :
    (ajvRequiredVersionError
        ∈ demoConfigBackend.config (JValue.obj [("model", JValue.str "test")]))
      ∧ (∀ e ∈ demoConfigBackend.config (JValue.obj [("model", JValue.str "test")]),
          e.instancePath = "" ∨ e.instancePath.data.head? = some '/')
      ∧ (lookupField [("model", JValue.str "test")] "version" = none)
      ∧ ((validateFull none (JValue.obj [("model", JValue.str "test")]) "config").valid = false
          ∧ (validateFull none (JValue.obj [("model", JValue.str "test")]) "config").errors.filter
              (fun e => e.severity == "critical") = [basicVersionMissingErr]
          ∧ (validateFull (some demoConfigBackend) (JValue.obj [("model", JValue.str "test")])
              "config").valid = false
          ∧ parseAJVError ajvRequiredVersionError
              ∈ (validateFull (some demoConfigBackend)
                  (JValue.obj [("model", JValue.str "test")]) "config").errors
          ∧ (parseAJVError ajvRequiredVersionError).path = "root"
          ∧ (parseAJVError ajvRequiredVersionError).severity = "critical"
          ∧ (parseAJVError ajvRequiredVersionError).fix = some "Add missing field: version"
          ∧ (∀ e ∈ (validateFull (some demoConfigBackend)
                (JValue.obj [("model", JValue.str "test")]) "config").errors,
              e.path ≠ "version")) := by
  have hlist : demoConfigBackend.config (JValue.obj [("model", JValue.str "test")])
      = [ajvRequiredVersionError, modelEnumAjvError (JValue.str "test")] := rfl
  refine ⟨?_, ?_, rfl, ?_⟩
  · rw [hlist]; exact List.mem_cons_self _ _
  · intro e he
    rw [hlist] at he
    rcases List.mem_cons.mp he with rfl | he2
    · exact Or.inl rfl
    · rcases List.mem_cons.mp he2 with rfl | he3
      · exact Or.inr rfl
      · exact absurd he3 (List.not_mem_nil _)
  · refine missing_version_amended [("model", JValue.str "test")] demoConfigBackend ?_ ?_ rfl
    · rw [hlist]; exact List.mem_cons_self _ _
    · intro e he
      rw [hlist] at he
      rcases List.mem_cons.mp he with rfl | he2
      · exact Or.inl rfl
      · rcases List.mem_cons.mp he2 with rfl | he3
        · exact Or.inr rfl
        · exact absurd he3 (List.not_mem_nil _)

lemma countP_result_severity (f : String) (l : List Rule) :
    l.countP (fun r => (resultOfRule f r).severity == "error")
      = l.countP (fun r => isThrow (r.check f r.config))
        + l.countP (fun r => !isThrow (r.check f r.config) && r.severity == "error") := by
  induction l with
  | nil => rfl
  | cons a t ih =>
    rw [List.countP_cons, List.countP_cons, List.countP_cons, ih]
    cases hc : a.check f a.config with
    | ok o =>
      have h1 : ((resultOfRule f a).severity == "error") = (a.severity == "error") := by
        simp [resultOfRule, hc]
      rw [h1]
      cases hs : a.severity == "error" <;> simp [isThrow, hs] <;> omega
    | error e =>
      have h1 : ((resultOfRule f a).severity == "error") = true := by
        simp [resultOfRule, hc]
      rw [h1]
      simp [isThrow]
      omega

/-- C3: when every checked file exists, a run over the file and rule sets
completes with exactly one result per (file, enabled rule) pair; each pair
whose check throws contributes the synthetic result with severity `error`,
`pass` false and the thrown message embedded; and the summary's `error`
count is exactly the number of throwing pairs plus the number of
non-throwing results whose rule severity is `error` — one more per
failure, with no file or rule skipped. -/
theorem rule_crash_isolated (fsExists : String → Bool) (files : List String)
    (rules : List Rule) (sev : String)
    (hex : ∀ f ∈ files, fsExists f = true) :
    (qualityCheck fsExists files rules sev).results.length
        = files.length * (rules.filter (fun r => r.enabled)).length
      ∧ (∀ f ∈ files, ∀ r ∈ rules, r.enabled = true →
          ∀ e, r.check f r.config = Except.error e →
            resultOfRule f r ∈ (qualityCheck fsExists files rules sev).results
              ∧ (resultOfRule f r).severity = "error"
              ∧ (resultOfRule f r).pass = false
              ∧ (resultOfRule f r).message = "Rule execution error: " ++ e)
      ∧ (qualityCheck fsExists files rules sev).summary.error
          = countCrashes files rules + countOkErrorSeverity files rules := by
  have hfile : ∀ f ∈ files,
      checkFile fsExists f rules
        = (rules.filter (fun r => r.enabled)).map (resultOfRule f) := by
    intro f hf
    simp [checkFile, hex f hf]
  have hres : (qualityCheck fsExists files rules sev).results
      = (files.map (fun f =>
          (rules.filter (fun r => r.enabled)).map (resultOfRule f))).flatten := by
    show (files.map (fun f => checkFile fsExists f rules)).flatten = _
    rw [List.map_congr_left hfile]
  refine ⟨?_, ?_, ?_⟩
  · rw [hres, List.length_flatten, List.map_map]
    have : ∀ f ∈ files,
        (List.length ∘ fun f =>
          (rules.filter (fun r => r.enabled)).map (resultOfRule f)) f
          = (rules.filter (fun r => r.enabled)).length := by
      intro f _
      simp
    rw [List.map_congr_left this, list_sum_map_const]
  · intro f hf r hr hen e he
    refine ⟨?_, ?_, ?_, ?_⟩
    · rw [hres]
      exact List.mem_flatten.mpr
        ⟨(rules.filter (fun r => r.enabled)).map (resultOfRule f),
         List.mem_map_of_mem _ hf,
         List.mem_map_of_mem _ (List.mem_filter.mpr ⟨hr, hen⟩)⟩
    · simp [resultOfRule, he]
    · simp [resultOfRule, he]
    · simp [resultOfRule, he]
  · have hsum : (qualityCheck fsExists files rules sev).summary.error
        = ((files.map (fun f =>
            (rules.filter (fun r => r.enabled)).map (resultOfRule f))).flatten).countP
            (fun r => r.severity == "error") := by
      show ((files.map (fun f => checkFile fsExists f rules)).flatten).countP _ = _
      rw [List.map_congr_left hfile]
    rw [hsum, List.countP_flatten, List.map_map]
    unfold countCrashes countOkErrorSeverity
    rw [← list_sum_map_add]
    have : ∀ f ∈ files,
        (List.countP (fun r => r.severity == "error") ∘ fun f =>
          (rules.filter (fun r => r.enabled)).map (resultOfRule f)) f
          = (rules.filter (fun r => r.enabled)).countP
              (fun r => isThrow (r.check f r.config))
            + (rules.filter (fun r => r.enabled)).countP
                (fun r => !isThrow (r.check f r.config) && r.severity == "error") := by
      intro f _
      show ((rules.filter (fun r => r.enabled)).map (resultOfRule f)).countP _ = _
      rw [List.countP_map]
      exact countP_result_severity f _
    rw [List.map_congr_left this]

/-- Witness for C3: two existing files against a crashing rule and a
passing rule. -/
theorem rule_crash_isolated_witness :
    (∀ f ∈ (["a.js", "b.js"] : List String), (fun (_ : String) => true) f = true)
      ∧ ((qualityCheck (fun _ => true) ["a.js", "b.js"] [crashingRule, passingRule]
            "warn").results.length
          = (["a.js", "b.js"] : List String).length
              * (([crashingRule, passingRule].filter (fun r => r.enabled)).length)
        ∧ (∀ f ∈ (["a.js", "b.js"] : List String),
            ∀ r ∈ [crashingRule, passingRule], r.enabled = true →
            ∀ e, r.check f r.config = Except.error e →
              resultOfRule f r
                  ∈ (qualityCheck (fun _ => true) ["a.js", "b.js"]
                      [crashingRule, passingRule] "warn").results
                ∧ (resultOfRule f r).severity = "error"
                ∧ (resultOfRule f r).pass = false
                ∧ (resultOfRule f r).message = "Rule execution error: " ++ e)
        ∧ (qualityCheck (fun _ => true) ["a.js", "b.js"] [crashingRule, passingRule]
              "warn").summary.error
            = countCrashes ["a.js", "b.js"] [crashingRule, passingRule]
              + countOkErrorSeverity ["a.js", "b.js"] [crashingRule, passingRule]) :=
  ⟨by decide,
   rule_crash_isolated (fun _ => true) ["a.js", "b.js"] [crashingRule, passingRule]
     "warn" (by decide)⟩

lemma lookupField_append_ne (fields : List (String × JValue)) (k : String) (v : JValue)
    (r : String) (hne : r ≠ k) :
    lookupField (fields ++ [(k, v)]) r = lookupField fields r := by
  unfold lookupField
  rw [List.find?_append]
  cases h : fields.find? (fun kv => kv.1 == r) with
  | some kv => simp
  | none =>
    have : (k == r) = false := beq_eq_false_iff_ne.mpr (Ne.symm hne)
    simp [List.find?, this]

lemma lookupField_append_isSome (fields : List (String × JValue)) (k : String)
    (v : JValue) (r : String) (h : (lookupField fields r).isSome = true) :
    lookupField (fields ++ [(k, v)]) r = lookupField fields r := by
  unfold lookupField at h ⊢
  rw [List.find?_append]
  cases hf : fields.find? (fun kv => kv.1 == r) with
  | some kv => simp
  | none => rw [hf] at h; simp at h

/-- C8: for each of the three schemas, a document that validates keeps
validating after a top-level field not declared in the schema (neither a
named property nor a pattern-property match) is added — unknown top-level
fields never cause rejection, in the schema-backed semantics
(`additionalProperties: true` in all three schema objects) as well as in
the fallback validator. -/
theorem unknown_field_preserved (sname : String) (ts : TopSchema)
    (hts : topSchemaOfName sname = some ts)
    (fields : List (String × JValue)) (k : String) (v : JValue)
    (hnotdecl : ts.props.all (fun p => !(p.1 == k)) = true)
    (hnopat : ts.patternProps.all (fun pp => !(pp.1 k)) = true)
    (hfresh : lookupField fields k = none)
    (hvalid : checkTopLevel ts (JValue.obj fields) = true)
    (hbasic : (basicValidate (JValue.obj fields) sname).valid = true) :
    checkTopLevel ts (JValue.obj (fields ++ [(k, v)])) = true
      ∧ (basicValidate (JValue.obj (fields ++ [(k, v)])) sname).valid = true := by
  constructor
  · simp only [checkTopLevel, Bool.and_eq_true] at hvalid ⊢
    obtain ⟨hreq, hall⟩ := hvalid
    constructor
    · rw [List.all_eq_true] at hreq ⊢
      intro r hr
      rw [lookupField_append_isSome fields k v r (hreq r hr)]
      exact hreq r hr
    · rw [List.all_append, Bool.and_eq_true]
      refine ⟨hall, ?_⟩
      have hfind : ts.props.find? (fun p => p.1 == k) = none := by
        rw [List.find?_eq_none]
        intro p hp
        have := List.all_eq_true.mp hnotdecl p hp
        simp at this
        simp [this]
      have hfilter : ts.patternProps.filter (fun pp => pp.1 k) = [] := by
        rw [List.filter_eq_nil_iff]
        intro pp hpp
        have := List.all_eq_true.mp hnopat pp hpp
        simp at this
        simp [this]
      simp only [List.all_cons, List.all_nil, Bool.and_true]
      rw [hfind, hfilter]
      simp
  · by_cases hc : sname = "config"
    · subst hc
      have hts' : ts = configTop := by
        simp [topSchemaOfName] at hts
        exact hts.symm
      have hmem : ("version", versionCheck) ∈ ts.props := by
        rw [hts']
        simp [configTop]
      have hne : ("version" : String) ≠ k := by
        have := List.all_eq_true.mp hnotdecl _ hmem
        simpa using this
      have heq : lookupField (fields ++ [(k, v)]) "version"
          = lookupField fields "version" :=
        lookupField_append_ne fields k v "version" hne
      have hsame : basicValidate (JValue.obj (fields ++ [(k, v)])) "config"
          = basicValidate (JValue.obj fields) "config" := by
        simp only [basicValidate, getProp, jsTruthy, isJsObjectType, heq]
      rw [hsame]
      exact hbasic
    · have hcb : (sname == "config") = false := beq_eq_false_iff_ne.mpr hc
      simp [basicValidate, jsTruthy, isJsObjectType, hcb]

/-- Witness for C8: adding an undeclared field to a minimal valid config
document keeps it valid in both validators. -/
theorem unknown_field_preserved_witness :
    (topSchemaOfName "config" = some configTop)
      ∧ (configTop.props.all (fun p => !(p.1 == "customField")) = true)
      ∧ (configTop.patternProps.all (fun pp => !(pp.1 "customField")) = true)
      ∧ (lookupField demoFields "customField" = none)
      ∧ (checkTopLevel configTop (JValue.obj demoFields) = true)
      ∧ ((basicValidate (JValue.obj demoFields) "config").valid = true)
      ∧ (checkTopLevel configTop
            (JValue.obj (demoFields ++ [("customField", JValue.bool true)])) = true
          ∧ (basicValidate
              (JValue.obj (demoFields ++ [("customField", JValue.bool true)]))
              "config").valid = true) :=
  ⟨rfl, rfl, rfl, rfl, rfl, rfl,
   unknown_field_preserved "config" configTop rfl demoFields "customField"
     (JValue.bool true) rfl rfl rfl rfl rfl⟩
